import Mathlib

/-!
Shallow embedding of the N-API boundary layer in `src/native/src/confsec.cc`.

Each exported wrapper function is modelled as a pure Lean function from the
JavaScript argument list and the result the opaque engine call would return
to a `WrapperResult` recording the JavaScript-visible outcome, the number of
engine entry-point invocations, the engine-owned payloads the wrapper
received, and the release events it performed on those payloads.

Modelling conventions:
- JavaScript numbers are restricted to integer values (`Int`); the handle
  round trip through IEEE-754 doubles is modelled separately by `doubleRound`.
- Engine payloads reaching the wrapper as `char*` buffers are modelled as the
  byte list stored at the pointer before its final terminator; reading such a
  buffer with `strlen` (as `Napi::Buffer::Copy(env, p, strlen(p))` does)
  yields the bytes before the first zero, i.e. `List.takeWhile (· ≠ 0)`.
- `strcpy` into a caller-side copy keeps the characters before the first NUL
  character; since a zero byte occurs in UTF-8 exactly at a U+0000 character,
  this is `cString` at the character level.
- `delete[]`/`free` of caller-allocated copies (tag copies, env copy) are not
  tracked: only engine-owned payloads are recorded in `received`/`frees`.
-/

namespace Confsec

/-- JavaScript values crossing the N-API boundary, as the wrapper inspects
them (`IsString`, `IsNumber`, `IsArray`, `IsNull`, `IsBuffer`). -/
inductive JSValue where
  | undefined : JSValue
  | null : JSValue
  | boolean : Bool → JSValue
  | num : Int → JSValue
  | str : String → JSValue
  | buffer : List Nat → JSValue
  | arr : List JSValue → JSValue

/-- An engine-owned payload handed to the wrapper: either a C string
(error message, wallet status, tag) or a byte buffer (metadata, body,
stream chunk). -/
inductive Payload where
  | cstr : String → Payload
  | bytes : List Nat → Payload
  deriving DecidableEq

/-- A release event performed by the wrapper on an engine-owned payload:
through the engine's dedicated `Confsec_Free`, or through the caller's
native allocator (`free`). -/
inductive FreeEvent where
  | viaConfsecFree : Payload → FreeEvent
  | viaNativeFree : Payload → FreeEvent
  deriving DecidableEq

/-- The JavaScript-visible outcome of a wrapper call: a returned value, a
thrown `Napi::TypeError`, or a thrown `Napi::Error`. -/
inductive JSOutcome where
  | ok : JSValue → JSOutcome
  | typeError : String → JSOutcome
  | jsError : String → JSOutcome

/-- Result of one wrapper invocation: the outcome, how many times the engine
entry point was invoked, the engine-owned payloads received, and the release
events performed on engine-owned payloads. -/
structure WrapperResult where
  outcome : JSOutcome
  engineCalls : Nat
  received : List Payload
  frees : List FreeEvent

/-- `strcpy` from a `std::string` copies the bytes before the first NUL; at
the character level this keeps the characters before the first U+0000. -/
def cString (s : String) : String :=
  ⟨s.data.takeWhile (fun c => c ≠ Char.ofNat 0)⟩

/-- UTF-8 bytes of one character. -/
def charBytes (c : Char) : List Nat :=
  (String.utf8EncodeChar c).map (fun b => b.toNat)

/-- UTF-8 bytes of a string (`Napi::String::Utf8Value`; also the content and
`length()` of the resulting `std::string`). -/
def stringBytes (s : String) : List Nat :=
  (s.data.map charBytes).flatten

/-- Reading a `char*` buffer with `strlen` yields the bytes before the first
zero byte (`Napi::Buffer<char>::Copy(env, p, strlen(p))`). -/
def strlenBytes (b : List Nat) : List Nat :=
  b.takeWhile (fun x => x ≠ 0)

/-- `JSArrayToCStringArray`: converts the elements in order, throwing if one
is not a string; each string is copied with `strcpy`, truncating at NUL. -/
def jsArrayToCStringArray : List JSValue → Option (List String)
  | [] => some []
  | .str s :: rest => (jsArrayToCStringArray rest).map (fun l => cString s :: l)
  | _ => none

/-- `info.Length() < 1 || !info[0].IsNumber()`, then
`static_cast<uintptr_t>(info[0].As<Napi::Number>().DoubleValue())`. -/
def requireHandle : List JSValue → Option Nat
  | .num n :: _ => some n.toNat
  | _ => none

/-- `Napi::Number::Int32Value()` on an integer-valued number: ECMAScript
`ToInt32`, i.e. reduction modulo 2^32 into `[-2^31, 2^31)`. -/
def toInt32 (n : Int) : Int :=
  if n % 2 ^ 32 < 2 ^ 31 then n % 2 ^ 32 else n % 2 ^ 32 - 2 ^ 32

def isString : JSValue → Bool
  | .str _ => true
  | _ => false

def isNumber : JSValue → Bool
  | .num _ => true
  | _ => false

def isArray : JSValue → Bool
  | .arr _ => true
  | _ => false

def isNull : JSValue → Bool
  | .null => true
  | _ => false

/-- Binary floor logarithm with explicit fuel (handles are `uintptr_t`, so 64
bits of fuel suffice). -/
def floorLog2 : Nat → Nat → Nat
  | 0, _ => 0
  | fuel + 1, n => if n < 2 then 0 else floorLog2 fuel (n / 2) + 1

/-- `static_cast<double>` on a non-negative integer: round to nearest IEEE-754
double (53-bit significand), ties to even. Exact below `2 ^ 53`. -/
def doubleRound (n : Nat) : Nat :=
  if n < 2 ^ 53 then n
  else
    let e := floorLog2 64 n - 52
    let q := n / 2 ^ e
    let r := n % 2 ^ e
    let half := 2 ^ (e - 1)
    if r < half then q * 2 ^ e
    else if half < r then (q + 1) * 2 ^ e
    else if q % 2 = 0 then q * 2 ^ e else (q + 1) * 2 ^ e

/-- A wrapper result carrying a thrown `Napi::TypeError`, before any engine
call. -/
def typeErrorResult (msg : String) : WrapperResult :=
  ⟨.typeError msg, 0, [], []⟩

/-- The `HANDLE_ERROR` macro, reached after the engine call returned a
non-null error message: throw `Napi::Error` carrying the message verbatim and
release the message through the caller's `free`. -/
def handleErrorResult (e : String) : WrapperResult :=
  ⟨.jsError e, 1, [.cstr e], [.viaNativeFree (.cstr e)]⟩

/-- Arguments passed to `Confsec_ClientCreate`: the API key as a C string,
the two `Int32Value` integers, the marshalled tag C strings, and the
environment (null pointer or C string copy). -/
structure CreateCall where
  apiKey : String
  concurrentRequestsTarget : Int
  maxCandidateNodes : Int
  defaultNodeTags : List String
  env_param : Option String
  deriving DecidableEq

/-- `ConfsecClientCreate` (confsec.cc lines 42-108). `eng` is the
`(handle, error)` pair the `Confsec_ClientCreate` call would return; the
second component of the result records the arguments passed to the engine
(`none` when the engine was not reached). -/
def ConfsecClientCreate (args : List JSValue) (eng : Nat × Option String) :
    WrapperResult × Option CreateCall :=
  match args with
  | a0 :: a1 :: a2 :: a3 :: a4 :: _ =>
    match a0, a1, a2, a3 with
    | .str apiKey, .num crt, .num mcn, .arr tagsArray =>
      if isString a4 || isNull a4 then
        match jsArrayToCStringArray tagsArray with
        | none => (⟨.typeError "A string was expected", 0, [], []⟩, none)
        | some defaultNodeTags =>
          let env_param : Option String :=
            match a4 with
            | .str s => some (cString s)
            | _ => none
          let call : CreateCall :=
            ⟨cString apiKey, toInt32 crt, toInt32 mcn, defaultNodeTags, env_param⟩
          let res : WrapperResult :=
            match eng.2 with
            | some e => handleErrorResult e
            | none =>
              if eng.1 = 0 then
                ⟨.jsError "Unexpected error creating client", 1, [], []⟩
              else
                ⟨.ok (.num (doubleRound eng.1)), 1, [], []⟩
          (res, some call)
      else (typeErrorResult "Environment must be a string or null", none)
    | .str _, .num _, .num _, _ =>
      (typeErrorResult "Default node tags must be an array", none)
    | .str _, .num _, _, _ =>
      (typeErrorResult "Max candidate nodes must be a number", none)
    | .str _, _, _, _ =>
      (typeErrorResult "Concurrent requests target must be a number", none)
    | _, _, _, _ =>
      (typeErrorResult "API key must be a string", none)
  | _ => (typeErrorResult "Expected 5 arguments", none)

/-- `ConfsecClientDestroy` (lines 110-125). `eng` is the error message the
`Confsec_ClientDestroy` call would report. -/
def ConfsecClientDestroy (args : List JSValue) (eng : Option String) :
    WrapperResult :=
  match requireHandle args with
  | none => typeErrorResult "Expected handle as number"
  | some _ =>
    match eng with
    | some e => handleErrorResult e
    | none => ⟨.ok .undefined, 1, [], []⟩

/-- `ConfsecClientGetDefaultCreditAmountPerRequest` (lines 127-142). `eng` is
the `(long, error)` pair the engine call would return. -/
def ConfsecClientGetDefaultCreditAmountPerRequest (args : List JSValue)
    (eng : Int × Option String) : WrapperResult :=
  match requireHandle args with
  | none => typeErrorResult "Expected handle as number"
  | some _ =>
    match eng.2 with
    | some e => handleErrorResult e
    | none => ⟨.ok (.num eng.1), 1, [], []⟩

/-- `ConfsecClientGetMaxCandidateNodes` (lines 144-159). -/
def ConfsecClientGetMaxCandidateNodes (args : List JSValue)
    (eng : Int × Option String) : WrapperResult :=
  match requireHandle args with
  | none => typeErrorResult "Expected handle as number"
  | some _ =>
    match eng.2 with
    | some e => handleErrorResult e
    | none => ⟨.ok (.num eng.1), 1, [], []⟩

/-- `ConfsecClientGetDefaultNodeTags` (lines 161-182). `eng` is the
`(tag list, error)` pair the engine call would return. The wrapper converts
each returned C string to a JavaScript string and performs no release of the
engine-owned tag array (the source frees nothing on this path). -/
def ConfsecClientGetDefaultNodeTags (args : List JSValue)
    (eng : List String × Option String) : WrapperResult :=
  match requireHandle args with
  | none => typeErrorResult "Expected handle as number"
  | some _ =>
    match eng.2 with
    | some e => handleErrorResult e
    | none => ⟨.ok (.arr (eng.1.map .str)), 1, eng.1.map .cstr, []⟩

/-- `ConfsecClientSetDefaultNodeTags` (lines 184-204). The second component
of the result records the marshalled tag C strings passed to the engine. -/
def ConfsecClientSetDefaultNodeTags (args : List JSValue)
    (eng : Option String) : WrapperResult × Option (List String) :=
  match args with
  | a0 :: a1 :: _ =>
    match a0, a1 with
    | .num _, .arr tagsArray =>
      match jsArrayToCStringArray tagsArray with
      | none => (⟨.typeError "A string was expected", 0, [], []⟩, none)
      | some tags =>
        let res : WrapperResult :=
          match eng with
          | some e => handleErrorResult e
          | none => ⟨.ok .undefined, 1, [], []⟩
        (res, some tags)
    | _, _ =>
      (typeErrorResult "Expected handle as number and tags as array", none)
  | _ => (typeErrorResult "Expected handle as number and tags as array", none)

/-- `ConfsecClientGetWalletStatus` (lines 206-224). `eng` is the
`(status C string, error)` pair; on success the status is converted to a
JavaScript string and released through `Confsec_Free`. -/
def ConfsecClientGetWalletStatus (args : List JSValue)
    (eng : String × Option String) : WrapperResult :=
  match requireHandle args with
  | none => typeErrorResult "Expected handle as number"
  | some _ =>
    match eng.2 with
    | some e => handleErrorResult e
    | none =>
      ⟨.ok (.str eng.1), 1, [.cstr eng.1], [.viaConfsecFree (.cstr eng.1)]⟩

/-- Arguments passed to `Confsec_ClientDoRequest`: the handle, the content of
the request buffer, and the explicit byte length. -/
structure DoRequestCall where
  handle : Nat
  request : List Nat
  requestLength : Nat
  deriving DecidableEq

/-- The request payload marshalling in `ConfsecClientDoRequest`: a string is
passed as its UTF-8 bytes with `std::string::length()` as length (explicit
length, not `strlen`, so embedded zero bytes survive); a buffer is passed
as-is with its length. -/
def payloadBytes : JSValue → Option (List Nat)
  | .str s => some (stringBytes s)
  | .buffer b => some b
  | _ => none

/-- `ConfsecClientDoRequest` (lines 226-259). `eng` is the
`(response handle, error)` pair the engine call would return; the second
component of the result records the arguments passed to the engine. -/
def ConfsecClientDoRequest (args : List JSValue) (eng : Nat × Option String) :
    WrapperResult × Option DoRequestCall :=
  match args with
  | a0 :: a1 :: _ =>
    match a0, payloadBytes a1 with
    | .num h, some bytes =>
      let call : DoRequestCall := ⟨h.toNat, bytes, bytes.length⟩
      let res : WrapperResult :=
        match eng.2 with
        | some e => handleErrorResult e
        | none =>
          if eng.1 = 0 then
            ⟨.jsError "Unexpected request failure", 1, [], []⟩
          else
            ⟨.ok (.num (doubleRound eng.1)), 1, [], []⟩
      (res, some call)
    | _, _ =>
      (typeErrorResult "Expected handle as number and request as string or buffer",
        none)
  | _ =>
    (typeErrorResult "Expected handle as number and request as string or buffer",
      none)

/-- `ConfsecResponseDestroy` (lines 261-276). -/
def ConfsecResponseDestroy (args : List JSValue) (eng : Option String) :
    WrapperResult :=
  match requireHandle args with
  | none => typeErrorResult "Expected handle as number"
  | some _ =>
    match eng with
    | some e => handleErrorResult e
    | none => ⟨.ok .undefined, 1, [], []⟩

/-- `ConfsecResponseGetMetadata` (lines 278-301). `eng` is the
`(buffer bytes or null, error)` pair; a non-null buffer is copied with
`strlen` as the length and released through `Confsec_Free`. -/
def ConfsecResponseGetMetadata (args : List JSValue)
    (eng : Option (List Nat) × Option String) : WrapperResult :=
  match requireHandle args with
  | none => typeErrorResult "Expected handle as number"
  | some _ =>
    match eng.2 with
    | some e => handleErrorResult e
    | none =>
      match eng.1 with
      | none => ⟨.jsError "Unexpected error getting request metadata", 1, [], []⟩
      | some metadata =>
        ⟨.ok (.buffer (strlenBytes metadata)), 1, [.bytes metadata],
          [.viaConfsecFree (.bytes metadata)]⟩

/-- `ConfsecResponseIsStreaming` (lines 303-318). -/
def ConfsecResponseIsStreaming (args : List JSValue)
    (eng : Bool × Option String) : WrapperResult :=
  match requireHandle args with
  | none => typeErrorResult "Expected handle as number"
  | some _ =>
    match eng.2 with
    | some e => handleErrorResult e
    | none => ⟨.ok (.boolean eng.1), 1, [], []⟩

/-- `ConfsecResponseGetBody` (lines 320-343). Same shape as `GetMetadata`:
the non-null body buffer is copied with `strlen` as the length and released
through `Confsec_Free`. -/
def ConfsecResponseGetBody (args : List JSValue)
    (eng : Option (List Nat) × Option String) : WrapperResult :=
  match requireHandle args with
  | none => typeErrorResult "Expected handle as number"
  | some _ =>
    match eng.2 with
    | some e => handleErrorResult e
    | none =>
      match eng.1 with
      | none => ⟨.jsError "Unexpected error getting request body", 1, [], []⟩
      | some body =>
        ⟨.ok (.buffer (strlenBytes body)), 1, [.bytes body],
          [.viaConfsecFree (.bytes body)]⟩

/-- `ConfsecResponseGetStream` (lines 345-365). -/
def ConfsecResponseGetStream (args : List JSValue)
    (eng : Nat × Option String) : WrapperResult :=
  match requireHandle args with
  | none => typeErrorResult "Expected handle as number"
  | some _ =>
    match eng.2 with
    | some e => handleErrorResult e
    | none =>
      if eng.1 = 0 then
        ⟨.jsError "Unexpected error getting response stream", 1, [], []⟩
      else
        ⟨.ok (.num (doubleRound eng.1)), 1, [], []⟩

/-- `ConfsecResponseStreamGetNext` (lines 367-389). `eng` is the
`(chunk buffer or null, error)` pair; a null chunk with no error is the
"no more chunks" outcome, returned as the JavaScript value `null`; a
non-null chunk is copied with `strlen` as the length and released through
`Confsec_Free`. -/
def ConfsecResponseStreamGetNext (args : List JSValue)
    (eng : Option (List Nat) × Option String) : WrapperResult :=
  match requireHandle args with
  | none => typeErrorResult "Expected handle as number"
  | some _ =>
    match eng.2 with
    | some e => handleErrorResult e
    | none =>
      match eng.1 with
      | none => ⟨.ok .null, 1, [], []⟩
      | some chunk =>
        ⟨.ok (.buffer (strlenBytes chunk)), 1, [.bytes chunk],
          [.viaConfsecFree (.bytes chunk)]⟩

/-- `ConfsecResponseStreamDestroy` (lines 391-406). -/
def ConfsecResponseStreamDestroy (args : List JSValue) (eng : Option String) :
    WrapperResult :=
  match requireHandle args with
  | none => typeErrorResult "Expected handle as number"
  | some _ =>
    match eng with
    | some e => handleErrorResult e
    | none => ⟨.ok .undefined, 1, [], []⟩

/-- Modelled from the spec: the five-kind error taxonomy of §7
(`ConfigurationError`, `InvalidHandleError`, `RequestError`, `StreamError`,
`InternalError`). The managed layer that classifies boundary failures into
these kinds is part of this repository but not under `src/`. -/
inductive ConfsecErrorKind where
  | configurationError : ConfsecErrorKind
  | invalidHandleError : ConfsecErrorKind
  | requestError : ConfsecErrorKind
  | streamError : ConfsecErrorKind
  | internalError : ConfsecErrorKind
  deriving DecidableEq

/-- Modelled from the spec: the typed failure object delivered to the caller,
distinguishing the five kinds and carrying the engine's message text. -/
structure TypedFailure where
  kind : ConfsecErrorKind
  message : String
  deriving DecidableEq

/-- Modelled from the spec: the managed layer (not under `src/`) turns a
boundary failure with message `e` into a typed failure of kind `k` carrying
`e` verbatim. -/
def typedFailureOf (k : ConfsecErrorKind) (e : String) : TypedFailure :=
  ⟨k, e⟩

/-- Modelled from the spec: the engine's default-node-tag store.
`ClientSetDefaultNodeTags` "replaces the entire tag sequence (not a merge)"
with exactly the received C strings, and `ClientGetDefaultNodeTags`
"reflects the current value". The store itself lives behind the opaque
engine entry points and is not under `src/`. -/
def engineTagStore (receivedTags : List String) : List String :=
  receivedTags

/-- `SetDefaultNodeTags(h, tags)` followed by `GetDefaultNodeTags(h)` with no
intervening mutation: the wrapper marshals `tags`, the spec-modelled engine
store replaces its content with the marshalled C strings, and the second
wrapper reads the store back. -/
def setThenGetDefaultNodeTags (h : Int) (tags : List JSValue) : JSOutcome :=
  match ConfsecClientSetDefaultNodeTags [.num h, .arr tags] none with
  | (_, some stored) =>
    (ConfsecClientGetDefaultNodeTags [.num h] (engineTagStore stored, none)).outcome
  | (res, none) => res.outcome

/-- Marshalling a list of JavaScript strings through `JSArrayToCStringArray`
succeeds and applies the `strcpy` truncation to each element. -/
theorem jsArrayToCStringArray_map_str (tags : List String) :
    jsArrayToCStringArray (tags.map .str) = some (tags.map cString) := by
  induction tags with
  | nil => rfl
  | cons t ts ih => simp [jsArrayToCStringArray, ih]

/-- A string containing no NUL character is unchanged by the `strcpy`
truncation. -/
theorem cString_eq_self (s : String) (h : ∀ c ∈ s.data, c ≠ Char.ofNat 0) :
    cString s = s := by
  unfold cString
  rw [List.takeWhile_eq_self_iff.mpr (by simpa using h)]

/-- A byte list containing no zero byte is unchanged by the `strlen` read. -/
theorem strlenBytes_eq_self (b : List Nat) (h : 0 ∉ b) : strlenBytes b = b := by
  unfold strlenBytes
  rw [List.takeWhile_eq_self_iff.mpr ?_]
  intro x hx
  simp only [decide_eq_true_eq]
  intro hx0
  exact h (hx0 ▸ hx)

/-- C1: for every creation-style or getter call (`ClientCreate`,
`ClientDoRequest`, `ResponseGetStream`, `ResponseGetMetadata`,
`ResponseGetBody`), an engine result reporting success (no error message)
together with an impossible value (zero handle or null payload) makes the
wrapper throw an error instead of returning the zero handle or an empty
value as success. -/
theorem c1_contract_violations_escalate :
    (∀ (k : String) (a b : Int) (tags : List String),
      ((ConfsecClientCreate [.str k, .num a, .num b, .arr (tags.map .str), .null]
          (0, none)).1).outcome = .jsError "Unexpected error creating client") ∧
    (∀ (h : Int) (bytes : List Nat),
      ((ConfsecClientDoRequest [.num h, .buffer bytes] (0, none)).1).outcome
        = .jsError "Unexpected request failure") ∧
    (∀ (h : Int),
      (ConfsecResponseGetStream [.num h] (0, none)).outcome
        = .jsError "Unexpected error getting response stream") ∧
    (∀ (h : Int),
      (ConfsecResponseGetMetadata [.num h] (none, none)).outcome
        = .jsError "Unexpected error getting request metadata") ∧
    (∀ (h : Int),
      (ConfsecResponseGetBody [.num h] (none, none)).outcome
        = .jsError "Unexpected error getting request body") := by
  refine ⟨?_, ?_, ?_, ?_, ?_⟩ <;> intros <;>
    simp [ConfsecClientCreate, ConfsecClientDoRequest, ConfsecResponseGetStream,
      ConfsecResponseGetMetadata, ConfsecResponseGetBody,
      jsArrayToCStringArray_map_str, requireHandle, payloadBytes, isString, isNull]

/-- C2 as stated is false: a body whose buffer holds bytes `[104, 0, 105]`
comes back truncated to `[104]`, because the wrapper copies `strlen(body)`
bytes. -/
theorem c2_counterexample :
    (ConfsecResponseGetBody [.num 1] (some [104, 0, 105], none)).outcome
      = .ok (.buffer [104]) ∧
    JSOutcome.ok (.buffer [104]) ≠ .ok (.buffer [104, 0, 105]) := by
  refine ⟨rfl, fun hcontra => ?_⟩
  simp at hcontra

/-- C2 amended: `GetBody` returns the payload truncated at the first zero
byte (the engine hands the body over as a NUL-terminated `char*` and the
wrapper copies `strlen` bytes); when the payload contains no zero byte the
full payload is returned. -/
theorem c2_getBody_full_when_no_zero_byte (h : Int) (body : List Nat)
    (hz : 0 ∉ body) :
    (ConfsecResponseGetBody [.num h] (some body, none)).outcome
      = .ok (.buffer body) := by
  simp [ConfsecResponseGetBody, requireHandle, strlenBytes_eq_self body hz]

/-- Witness for C2's amended theorem at the zero-free body `[104, 105]`. -/
theorem c2_witness :
    (ConfsecResponseGetBody [.num 1] (some [104, 105], none)).outcome
      = .ok (.buffer [104, 105]) :=
  c2_getBody_full_when_no_zero_byte 1 [104, 105] (by decide)

/-- C5: `DoRequest` passes the payload to the engine with its length taken in
bytes (the UTF-8 byte count for text, the buffer length for raw bytes), and
supplying the payload as text is marshalled to the same `(content, length)`
pair as supplying its byte encoding as raw bytes. Caveat outside this
embedding: in the source's text branch the pointer is `c_str()` of
`requestStr`, a `std::string` scoped to the `if` block that is destroyed
before the engine call at line 250, so the pointer dangles at the call; the
embedding models the content the marshalling computes, which is what the
claim and the buffer branch describe. -/
theorem c5_payload_bytes_and_length :
    ∀ (h : Int) (s : String) (bytes : List Nat) (eng e₁ e₂ : Nat × Option String),
      (ConfsecClientDoRequest [.num h, .str s] e₁).2
          = some ⟨h.toNat, stringBytes s, (stringBytes s).length⟩ ∧
      (ConfsecClientDoRequest [.num h, .buffer (stringBytes s)] e₂).2
          = (ConfsecClientDoRequest [.num h, .str s] e₁).2 ∧
      (ConfsecClientDoRequest [.num h, .buffer bytes] eng).2
          = some ⟨h.toNat, bytes, bytes.length⟩ := by
  intros
  refine ⟨?_, ?_, ?_⟩ <;> simp [ConfsecClientDoRequest, payloadBytes]

/-- C6: a null chunk with no engine error (the "no more chunks" outcome) is
returned as the first-class JavaScript success value `null`, which is not an
error and is distinct from the thrown failure produced when the engine
reports a mid-stream error; a non-null chunk is returned to the caller as its
bytes. The chunk crosses the boundary as a NUL-terminated C string, so its
bytes contain no zero byte, which the last part's hypothesis records. -/
theorem c6_stream_next_end_marker :
    (∀ (h : Int),
      (ConfsecResponseStreamGetNext [.num h] (none, none)).outcome
        = .ok .null) ∧
    (∀ (h : Int) (c : Option (List Nat)) (e : String),
      (ConfsecResponseStreamGetNext [.num h] (c, some e)).outcome
        = .jsError e) ∧
    (∀ (e : String), JSOutcome.ok .null ≠ .jsError e) ∧
    (∀ (h : Int) (chunk : List Nat), 0 ∉ chunk →
      (ConfsecResponseStreamGetNext [.num h] (some chunk, none)).outcome
        = .ok (.buffer chunk)) := by
  refine ⟨?_, ?_, ?_, ?_⟩
  · intro h
    rfl
  · intro h c e
    rfl
  · intro e hcontra
    simp at hcontra
  · intro h chunk hz
    simp [ConfsecResponseStreamGetNext, requireHandle, handleErrorResult,
      strlenBytes_eq_self chunk hz]

/-- Witness for C6's theorem at a concrete one-chunk read. -/
theorem c6_witness :
    (ConfsecResponseStreamGetNext [.num 1] (some [99, 104], none)).outcome
      = .ok (.buffer [99, 104]) :=
  c6_stream_next_end_marker.2.2.2 1 [99, 104] (by decide)

/-- C3 as stated is false: when the engine reports an error, the error
message — a string payload received from the engine — is released through the
caller's native `free` (the `HANDLE_ERROR` macro), not through
`Confsec_Free`; and the tag list received from
`Confsec_ClientGetDefaultNodeTags` is released through neither. -/
theorem c3_counterexample :
    (ConfsecClientGetWalletStatus [.num 1] ("", some "boom")).received
        = [.cstr "boom"] ∧
    (ConfsecClientGetWalletStatus [.num 1] ("", some "boom")).frees
        = [.viaNativeFree (.cstr "boom")] ∧
    (ConfsecClientGetDefaultNodeTags [.num 1] (["t"], none)).received
        = [.cstr "t"] ∧
    (ConfsecClientGetDefaultNodeTags [.num 1] (["t"], none)).frees = [] := by
  refine ⟨rfl, rfl, rfl, rfl⟩

/-- C3 amended: the wallet status, metadata, body and stream chunk payloads
are released through the engine's `Confsec_Free` on their success paths;
however the engine's error message is released through the caller's native
`free` on every error path, and the tag list received from
`Confsec_ClientGetDefaultNodeTags` is not released by the wrapper at all. -/
theorem c3_release_policy :
    (∀ (h : Int) (ws : String),
      (ConfsecClientGetWalletStatus [.num h] (ws, none)).received
          = [.cstr ws] ∧
      (ConfsecClientGetWalletStatus [.num h] (ws, none)).frees
          = [.viaConfsecFree (.cstr ws)]) ∧
    (∀ (h : Int) (m : List Nat),
      (ConfsecResponseGetMetadata [.num h] (some m, none)).received
          = [.bytes m] ∧
      (ConfsecResponseGetMetadata [.num h] (some m, none)).frees
          = [.viaConfsecFree (.bytes m)]) ∧
    (∀ (h : Int) (b : List Nat),
      (ConfsecResponseGetBody [.num h] (some b, none)).received
          = [.bytes b] ∧
      (ConfsecResponseGetBody [.num h] (some b, none)).frees
          = [.viaConfsecFree (.bytes b)]) ∧
    (∀ (h : Int) (c : List Nat),
      (ConfsecResponseStreamGetNext [.num h] (some c, none)).received
          = [.bytes c] ∧
      (ConfsecResponseStreamGetNext [.num h] (some c, none)).frees
          = [.viaConfsecFree (.bytes c)]) ∧
    (∀ (h : Int) (ts : List String),
      (ConfsecClientGetDefaultNodeTags [.num h] (ts, none)).received
          = ts.map .cstr ∧
      (ConfsecClientGetDefaultNodeTags [.num h] (ts, none)).frees = []) ∧
    (∀ (e : String),
      (handleErrorResult e).received = [.cstr e] ∧
      (handleErrorResult e).frees = [.viaNativeFree (.cstr e)]) := by
  refine ⟨?_, ?_, ?_, ?_, ?_, ?_⟩ <;> intros <;> exact ⟨rfl, rfl⟩

/-- C4: when the engine reports an error, every one of the fifteen boundary
wrappers throws a failure carrying the engine's message text verbatim after
exactly one engine invocation (no retry is performed by this layer); the
managed layer's typed failure object (modelled from the spec, its code is
not under `src/`) carries the message verbatim and distinguishes five
pairwise-distinct error kinds. -/
theorem c4_errors_verbatim_typed_no_retry :
    (∀ (k : String) (a b : Int) (tags : List String) (h0 : Nat) (e : String),
      (ConfsecClientCreate [.str k, .num a, .num b, .arr (tags.map .str), .null]
          (h0, some e)).1 = handleErrorResult e) ∧
    (∀ (h : Int) (e : String),
      ConfsecClientDestroy [.num h] (some e) = handleErrorResult e) ∧
    (∀ (h : Int) (v : Int) (e : String),
      ConfsecClientGetDefaultCreditAmountPerRequest [.num h] (v, some e)
        = handleErrorResult e) ∧
    (∀ (h : Int) (v : Int) (e : String),
      ConfsecClientGetMaxCandidateNodes [.num h] (v, some e)
        = handleErrorResult e) ∧
    (∀ (h : Int) (ts : List String) (e : String),
      ConfsecClientGetDefaultNodeTags [.num h] (ts, some e)
        = handleErrorResult e) ∧
    (∀ (h : Int) (tags : List String) (e : String),
      (ConfsecClientSetDefaultNodeTags [.num h, .arr (tags.map .str)]
          (some e)).1 = handleErrorResult e) ∧
    (∀ (h : Int) (ws : String) (e : String),
      ConfsecClientGetWalletStatus [.num h] (ws, some e)
        = handleErrorResult e) ∧
    (∀ (h : Int) (bytes : List Nat) (rh : Nat) (e : String),
      (ConfsecClientDoRequest [.num h, .buffer bytes] (rh, some e)).1
        = handleErrorResult e) ∧
    (∀ (h : Int) (e : String),
      ConfsecResponseDestroy [.num h] (some e) = handleErrorResult e) ∧
    (∀ (h : Int) (m : Option (List Nat)) (e : String),
      ConfsecResponseGetMetadata [.num h] (m, some e) = handleErrorResult e) ∧
    (∀ (h : Int) (bflag : Bool) (e : String),
      ConfsecResponseIsStreaming [.num h] (bflag, some e)
        = handleErrorResult e) ∧
    (∀ (h : Int) (b : Option (List Nat)) (e : String),
      ConfsecResponseGetBody [.num h] (b, some e) = handleErrorResult e) ∧
    (∀ (h : Int) (sh : Nat) (e : String),
      ConfsecResponseGetStream [.num h] (sh, some e) = handleErrorResult e) ∧
    (∀ (h : Int) (c : Option (List Nat)) (e : String),
      ConfsecResponseStreamGetNext [.num h] (c, some e)
        = handleErrorResult e) ∧
    (∀ (h : Int) (e : String),
      ConfsecResponseStreamDestroy [.num h] (some e) = handleErrorResult e) ∧
    (∀ (e : String),
      (handleErrorResult e).outcome = .jsError e ∧
      (handleErrorResult e).engineCalls = 1) ∧
    (∀ (k : ConfsecErrorKind) (e : String), (typedFailureOf k e).message = e) ∧
    ([ConfsecErrorKind.configurationError, .invalidHandleError, .requestError,
      .streamError, .internalError].Nodup) := by
  refine ⟨?_, ?_, ?_, ?_, ?_, ?_, ?_, ?_, ?_, ?_, ?_, ?_, ?_, ?_, ?_, ?_, ?_, ?_⟩
  · intro k a b tags h0 e
    simp [ConfsecClientCreate, jsArrayToCStringArray_map_str, isNull]
  · intro h e
    rfl
  · intro h v e
    rfl
  · intro h v e
    rfl
  · intro h ts e
    rfl
  · intro h tags e
    simp [ConfsecClientSetDefaultNodeTags, jsArrayToCStringArray_map_str]
  · intro h ws e
    rfl
  · intro h bytes rh e
    rfl
  · intro h e
    rfl
  · intro h m e
    rfl
  · intro h bflag e
    rfl
  · intro h b e
    rfl
  · intro h sh e
    rfl
  · intro h c e
    rfl
  · intro h e
    rfl
  · intro e
    exact ⟨rfl, rfl⟩
  · intro k e
    rfl
  · decide

/-- C7 as stated is false: a tag containing an embedded NUL character is
truncated by the `strcpy` copy in `JSArrayToCStringArray`, so `Set` followed
by `Get` returns the truncated tag, not the original sequence. -/
theorem c7_counterexample :
    setThenGetDefaultNodeTags 1 [.str "a\x00b"] = .ok (.arr [.str "a"]) ∧
    JSOutcome.ok (.arr [.str "a"]) ≠ .ok (.arr [.str "a\x00b"]) := by
  refine ⟨rfl, fun hcontra => ?_⟩
  simp at hcontra

/-- C7 amended: for every live client handle and every sequence `T` of
strings containing no NUL character (including the empty sequence and
sequences with duplicates), `SetDefaultNodeTags(h, T)` followed by
`GetDefaultNodeTags(h)` with no intervening mutation returns exactly `T`,
preserving order and duplicates; the engine's tag store (modelled from the
spec) replaces the entire sequence rather than merging. -/
theorem c7_set_then_get_roundtrip (h : Int) (tags : List String)
    (hz : ∀ t ∈ tags, ∀ c ∈ t.data, c ≠ Char.ofNat 0) :
    setThenGetDefaultNodeTags h (tags.map .str)
      = .ok (.arr (tags.map .str)) := by
  have hmap : tags.map cString = tags := by
    calc tags.map cString = tags.map id :=
          List.map_congr_left (fun t ht => cString_eq_self t (hz t ht))
    _ = tags := List.map_id tags
  simp [setThenGetDefaultNodeTags, ConfsecClientSetDefaultNodeTags,
    jsArrayToCStringArray_map_str, engineTagStore,
    ConfsecClientGetDefaultNodeTags, requireHandle, hmap]

/-- Witness for C7's amended theorem at a sequence with a duplicate and an
empty tag. -/
theorem c7_witness :
    setThenGetDefaultNodeTags 1 (["x", "x", ""].map .str)
      = .ok (.arr (["x", "x", ""].map .str)) :=
  c7_set_then_get_roundtrip 1 ["x", "x", ""] (by decide)

/-- C8: `ClientCreate` passes a null environment argument to the engine as
the distinguished absent value (null pointer), which is distinct from the
empty string (a non-null pointer to an empty C string); any environment value
that is neither a string nor null is rejected with a type error before the
engine is called. -/
theorem c8_environment_null_vs_empty :
    (∀ (k : String) (a b : Int) (tags : List String) (eng : Nat × Option String),
      (ConfsecClientCreate [.str k, .num a, .num b, .arr (tags.map .str), .null]
          eng).2
        = some ⟨cString k, toInt32 a, toInt32 b, tags.map cString, none⟩) ∧
    (∀ (k s : String) (a b : Int) (tags : List String) (eng : Nat × Option String),
      (ConfsecClientCreate [.str k, .num a, .num b, .arr (tags.map .str), .str s]
          eng).2
        = some ⟨cString k, toInt32 a, toInt32 b, tags.map cString,
            some (cString s)⟩) ∧
    (some (cString "") ≠ (none : Option String)) ∧
    (∀ (k : String) (a b : Int) (tags : List JSValue) (v : JSValue)
        (eng : Nat × Option String),
      isString v = false → isNull v = false →
      ConfsecClientCreate [.str k, .num a, .num b, .arr tags, v] eng
        = (typeErrorResult "Environment must be a string or null", none)) := by
  refine ⟨?_, ?_, ?_, ?_⟩
  · intro k a b tags eng
    simp [ConfsecClientCreate, jsArrayToCStringArray_map_str, isNull]
  · intro k s a b tags eng
    simp [ConfsecClientCreate, jsArrayToCStringArray_map_str, isString]
  · intro hcontra
    simp at hcontra
  · intro k a b tags v eng hs hn
    simp [ConfsecClientCreate, hs, hn]

/-- Witness for C8's theorem at the environment value `3`, which is neither a
string nor null. -/
theorem c8_witness :
    ConfsecClientCreate [.str "k", .num 1, .num 2, .arr [], .num 3] (5, none)
      = (typeErrorResult "Environment must be a string or null", none) :=
  c8_environment_null_vs_empty.2.2.2 "k" 1 2 [] (.num 3) (5, none) rfl rfl

/-- C9: handles cross the boundary as IEEE-754 doubles: a successful creation
returns the handle rounded to the nearest double (`doubleRound`), the caller
hands the stored number back unchanged, and this round trip is exact for
every handle strictly below `2 ^ 53` and lossy at `2 ^ 53 + 1`. -/
theorem c9_handle_double_roundtrip :
    (∀ (k : String) (a b : Int) (tags : List String) (h' : Nat),
      ((ConfsecClientCreate [.str k, .num a, .num b, .arr (tags.map .str), .null]
          (h' + 1, none)).1).outcome = .ok (.num (doubleRound (h' + 1)))) ∧
    (∀ (n : Nat), requireHandle [.num (n : Int)] = some n) ∧
    (∀ (n : Nat), n < 2 ^ 53 → doubleRound n = n) ∧
    (2 ^ 53 ≤ 2 ^ 53 + 1 ∧ doubleRound (2 ^ 53 + 1) ≠ 2 ^ 53 + 1) := by
  refine ⟨?_, ?_, ?_, ?_, ?_⟩
  · intro k a b tags h'
    simp [ConfsecClientCreate, jsArrayToCStringArray_map_str, isNull]
  · intro n
    simp [requireHandle]
  · intro n hn
    unfold doubleRound
    rw [if_pos hn]
  · exact Nat.le_succ _
  · decide

/-- Witness for C9's theorem at the handle `7 < 2 ^ 53`. -/
theorem c9_witness :
    doubleRound 7 = 7 ∧ requireHandle [.num (7 : Int)] = some 7 :=
  ⟨c9_handle_double_roundtrip.2.2.1 7 (by decide),
    c9_handle_double_roundtrip.2.1 7⟩

/-- C10: every exported operation validates its argument count and types
locally before invoking the engine; on each malformed input named by the
claim (too few arguments, non-number handle, non-array tags, payload neither
string nor buffer) the wrapper throws a type error without any engine call
(`typeErrorResult` has `engineCalls = 0`), so no engine state changes. -/
theorem c10_local_validation_before_engine :
    (∀ (args : List JSValue) (eng : Nat × Option String), args.length < 5 →
      ConfsecClientCreate args eng
        = (typeErrorResult "Expected 5 arguments", none)) ∧
    (∀ (args : List JSValue) (eng : Option String), requireHandle args = none →
      ConfsecClientDestroy args eng
        = typeErrorResult "Expected handle as number") ∧
    (∀ (h : Int) (a1 : JSValue) (rest : List JSValue) (eng : Nat × Option String),
      payloadBytes a1 = none →
      ConfsecClientDoRequest (.num h :: a1 :: rest) eng
        = (typeErrorResult
            "Expected handle as number and request as string or buffer",
          none)) ∧
    (∀ (a0 a1 : JSValue) (rest : List JSValue) (eng : Nat × Option String),
      isNumber a0 = false →
      ConfsecClientDoRequest (a0 :: a1 :: rest) eng
        = (typeErrorResult
            "Expected handle as number and request as string or buffer",
          none)) ∧
    (∀ (h : Int) (v : JSValue) (rest : List JSValue) (eng : Option String),
      isArray v = false →
      ConfsecClientSetDefaultNodeTags (.num h :: v :: rest) eng
        = (typeErrorResult "Expected handle as number and tags as array",
          none)) ∧
    (∀ (k : String) (a b : Int) (v a4 : JSValue) (rest : List JSValue)
        (eng : Nat × Option String),
      isArray v = false →
      ConfsecClientCreate (.str k :: .num a :: .num b :: v :: a4 :: rest) eng
        = (typeErrorResult "Default node tags must be an array", none)) ∧
    (∀ (args : List JSValue) (eng : Int × Option String),
      requireHandle args = none →
      ConfsecClientGetDefaultCreditAmountPerRequest args eng
        = typeErrorResult "Expected handle as number") ∧
    (∀ (args : List JSValue) (eng : Int × Option String),
      requireHandle args = none →
      ConfsecClientGetMaxCandidateNodes args eng
        = typeErrorResult "Expected handle as number") ∧
    (∀ (args : List JSValue) (eng : List String × Option String),
      requireHandle args = none →
      ConfsecClientGetDefaultNodeTags args eng
        = typeErrorResult "Expected handle as number") ∧
    (∀ (args : List JSValue) (eng : String × Option String),
      requireHandle args = none →
      ConfsecClientGetWalletStatus args eng
        = typeErrorResult "Expected handle as number") ∧
    (∀ (args : List JSValue) (eng : Option String),
      requireHandle args = none →
      ConfsecResponseDestroy args eng
        = typeErrorResult "Expected handle as number") ∧
    (∀ (args : List JSValue) (eng : Option (List Nat) × Option String),
      requireHandle args = none →
      ConfsecResponseGetMetadata args eng
        = typeErrorResult "Expected handle as number") ∧
    (∀ (args : List JSValue) (eng : Bool × Option String),
      requireHandle args = none →
      ConfsecResponseIsStreaming args eng
        = typeErrorResult "Expected handle as number") ∧
    (∀ (args : List JSValue) (eng : Option (List Nat) × Option String),
      requireHandle args = none →
      ConfsecResponseGetBody args eng
        = typeErrorResult "Expected handle as number") ∧
    (∀ (args : List JSValue) (eng : Nat × Option String),
      requireHandle args = none →
      ConfsecResponseGetStream args eng
        = typeErrorResult "Expected handle as number") ∧
    (∀ (args : List JSValue) (eng : Option (List Nat) × Option String),
      requireHandle args = none →
      ConfsecResponseStreamGetNext args eng
        = typeErrorResult "Expected handle as number") ∧
    (∀ (args : List JSValue) (eng : Option String),
      requireHandle args = none →
      ConfsecResponseStreamDestroy args eng
        = typeErrorResult "Expected handle as number") ∧
    (∀ (msg : String), (typeErrorResult msg).engineCalls = 0) := by
  refine ⟨?_, ?_, ?_, ?_, ?_, ?_, ?_, ?_, ?_, ?_, ?_, ?_, ?_, ?_, ?_, ?_, ?_, ?_⟩
  · intro args eng hlen
    rcases args with _ | ⟨a0, _ | ⟨a1, _ | ⟨a2, _ | ⟨a3, _ | ⟨a4, rest⟩⟩⟩⟩⟩ <;>
      first
        | rfl
        | (simp [List.length_cons] at hlen; omega)
  · intro args eng hreq
    simp [ConfsecClientDestroy, hreq]
  · intro h a1 rest eng hp
    simp [ConfsecClientDoRequest, hp]
  · intro a0 a1 rest eng hnum
    cases a0 <;> simp [ConfsecClientDoRequest, payloadBytes] <;>
      first
        | rfl
        | simp [isNumber] at hnum
  · intro h v rest eng harr
    cases v <;> simp [ConfsecClientSetDefaultNodeTags] <;>
      first
        | rfl
        | simp [isArray] at harr
  · intro k a b v a4 rest eng harr
    cases v <;> simp [ConfsecClientCreate] <;>
      first
        | rfl
        | simp [isArray] at harr
  · intro args eng hreq
    simp [ConfsecClientGetDefaultCreditAmountPerRequest, hreq]
  · intro args eng hreq
    simp [ConfsecClientGetMaxCandidateNodes, hreq]
  · intro args eng hreq
    simp [ConfsecClientGetDefaultNodeTags, hreq]
  · intro args eng hreq
    simp [ConfsecClientGetWalletStatus, hreq]
  · intro args eng hreq
    simp [ConfsecResponseDestroy, hreq]
  · intro args eng hreq
    simp [ConfsecResponseGetMetadata, hreq]
  · intro args eng hreq
    simp [ConfsecResponseIsStreaming, hreq]
  · intro args eng hreq
    simp [ConfsecResponseGetBody, hreq]
  · intro args eng hreq
    simp [ConfsecResponseGetStream, hreq]
  · intro args eng hreq
    simp [ConfsecResponseStreamGetNext, hreq]
  · intro args eng hreq
    simp [ConfsecResponseStreamDestroy, hreq]
  · intro msg
    rfl

/-- Witness for C10's theorem: a string handle, a null payload, and a
three-argument `ClientCreate` all fail with a type error before any engine
call. -/
theorem c10_witness :
    ConfsecClientDestroy [.str "h"] none
        = typeErrorResult "Expected handle as number" ∧
    ConfsecClientDoRequest [.num 1, .null] (0, none)
        = (typeErrorResult
            "Expected handle as number and request as string or buffer",
          none) ∧
    ConfsecClientCreate [.str "k", .num 1, .num 2] (0, none)
        = (typeErrorResult "Expected 5 arguments", none) :=
  ⟨c10_local_validation_before_engine.2.1 [.str "h"] none rfl,
    c10_local_validation_before_engine.2.2.1 1 .null [] (0, none) rfl,
    c10_local_validation_before_engine.1 [.str "k", .num 1, .num 2] (0, none)
      (by decide)⟩

end Confsec
